import Mathlib

/-!
# Verification of the Predictive-Satellite-Routing RFP core

Shallow embedding of the RFP (Routing for Predictable link-down events)
core of the repository:

* `PredictableLinkDownEvent` and `TopologyManagementModule` (TMM),
  from `src/modules/topology-mgmt.h`;
* `LinkDetectionModule` (LDM), from `src/modules/link-detection.h`;
* `RouteManagementModule` (RMM), from `src/modules/route-mgmt.h`;
* `PerformanceAnalyzer`, from `src/modules/performance-analyzer.h`;
* `SatnetOspfController`, from `src/applications/satnet-controller.h`;
* `ValidateNodeIndices`, from `src/helpers/quagga-integration.h`.

Modelling conventions:

* C++ `double` time values are embedded as `ℚ` (exact arithmetic; the
  constants `Tc = 2.0` and `dT = 0.5` and all inputs used in witnesses are
  exactly representable, so no rounding behaviour is relied upon).
* C++ `int` node identifiers are embedded as `ℤ`.
* `std::map<std::pair<int,int>, bool>` is embedded as an association list
  with insert-or-assign update; `std::set<std::pair<int,int>>` as a list
  with duplicate-free insert and filtering erase.
* External side effects (vtysh/Quagga commands issued by
  `SetQuaggaLinkStateReal`, `AddQuaggaRoute`, `DelQuaggaRoute`,
  `ForceOspfConvergence`, `ApplyRouteUpdateReal`) are recorded as an
  explicit sink trace (`SinkCall`) where a claim depends on them, and
  otherwise dropped: they never feed back into the module state.
* The discrete-event scheduler (`Simulator::Schedule`) is embedded by
  returning the list of scheduled callbacks.
-/

/-- A node pair, the raw (unnormalized) key type `std::pair<int,int>`. -/
abbrev NodePair := Int × Int

/-- Lookup in an association list embedding `std::map::find`. -/
def mapFind {α : Type} (m : List (NodePair × α)) (k : NodePair) : Option α :=
  match m with
  | [] => none
  | (k', v) :: rest => if k' = k then some v else mapFind rest k

/-- Insert-or-assign, embedding `std::map::operator[] = v`. -/
def mapSet {α : Type} (m : List (NodePair × α)) (k : NodePair) (v : α) :
    List (NodePair × α) :=
  match m with
  | [] => [(k, v)]
  | (k', v') :: rest => if k' = k then (k, v) :: rest else (k', v') :: mapSet rest k v

/-- Duplicate-free insertion, embedding `std::set::insert`. -/
def setInsert (s : List NodePair) (k : NodePair) : List NodePair :=
  if k ∈ s then s else k :: s

/-- Erasure of a key, embedding `std::set::erase`. -/
def setErase (s : List NodePair) (k : NodePair) : List NodePair :=
  s.filter (fun k' => k' ≠ k)

/-- `RFP_CONVERGENCE_TIME_TC = 2.0` (OSPF convergence time `Tc`),
from `src/core/constellation-params.h` as recorded in the repository
README (`const double RFP_CONVERGENCE_TIME_TC = 2.0;`). -/
def RFP_CONVERGENCE_TIME_TC : ℚ := 2

/-- `RFP_SAFETY_MARGIN_DT = 0.5` (safety margin `dT`), from
`src/core/constellation-params.h` as recorded in the repository README
(`const double RFP_SAFETY_MARGIN_DT = 0.5;`). -/
def RFP_SAFETY_MARGIN_DT : ℚ := 1 / 2

/-- `PredictableLinkDownEvent` (`src/modules/topology-mgmt.h`):
one scheduled future failure, with the four derived timeline markers. -/
structure PredictableLinkDownEvent where
  linkId : Int
  nodeA : Int
  nodeB : Int
  T0 : ℚ
  T1 : ℚ
  T2 : ℚ
  T3 : ℚ
  active : Bool
deriving DecidableEq, Repr

/-- The parameterized constructor
`PredictableLinkDownEvent(int lid, int a, int b, double t0)`:
derives `T1 = T0 - Tc - 2*dT`, `T2 = T0 - dT`, `T3 = T0 + dT`, and when
`T1 < 0` re-anchors `T1 = 0.1`, `T2 = T1 + Tc + dT`, `T3 = T2 + 2*dT`,
`T0 = T3 - dT`, exactly in that order. -/
def mkPredictableLinkDownEvent (lid a b : Int) (t0 : ℚ) : PredictableLinkDownEvent :=
  let T1 := t0 - RFP_CONVERGENCE_TIME_TC - 2 * RFP_SAFETY_MARGIN_DT
  let T2 := t0 - RFP_SAFETY_MARGIN_DT
  let T3 := t0 + RFP_SAFETY_MARGIN_DT
  if T1 < 0 then
    let T1' : ℚ := 1 / 10
    let T2' := T1' + RFP_CONVERGENCE_TIME_TC + RFP_SAFETY_MARGIN_DT
    let T3' := T2' + 2 * RFP_SAFETY_MARGIN_DT
    let T0' := T3' - RFP_SAFETY_MARGIN_DT
    { linkId := lid, nodeA := a, nodeB := b,
      T0 := T0', T1 := T1', T2 := T2', T3 := T3', active := true }
  else
    { linkId := lid, nodeA := a, nodeB := b,
      T0 := t0, T1 := T1, T2 := T2, T3 := T3, active := true }

/-- `TopologyManagementModule` (TMM, `src/modules/topology-mgmt.h`):
holds the list of predicted link-down events. -/
structure TopologyManagementModule where
  predictedEvents : List PredictableLinkDownEvent
deriving Repr

/-- The TMM in its initial (default-constructed) state: no events. -/
def initTmm : TopologyManagementModule := ⟨[]⟩

/-- `TopologyManagementModule::AddPredictableLinkDown`: constructs the
event and appends it to `m_predictedEvents`. -/
def TopologyManagementModule.AddPredictableLinkDown
    (tmm : TopologyManagementModule) (linkId nodeA nodeB : Int) (eventTime : ℚ) :
    TopologyManagementModule :=
  ⟨tmm.predictedEvents ++ [mkPredictableLinkDownEvent linkId nodeA nodeB eventTime]⟩

/-- `TopologyManagementModule::IsInBldPeriod`, embedded verbatim,
including the pair-matching condition
`(event.nodeA == nodeA && event.nodeB == nodeB) || (event.nodeA == nodeB && event.nodeA == nodeA)`
whose second disjunct repeats `event.nodeA` (the source text compares
`event.nodeA` with both arguments and never consults `event.nodeB`). -/
def TopologyManagementModule.IsInBldPeriod
    (tmm : TopologyManagementModule) (nodeA nodeB : Int) (currentTime : ℚ) : Bool :=
  tmm.predictedEvents.any fun event =>
    event.active &&
      ((event.nodeA == nodeA && event.nodeB == nodeB) ||
        (event.nodeA == nodeB && event.nodeA == nodeA)) &&
      decide (event.T1 ≤ currentTime) && decide (currentTime ≤ event.T3)

/-- `TopologyManagementModule::IsInBfuPeriod`: some active event has
`currentTime ∈ [T1, T2]`. -/
def TopologyManagementModule.IsInBfuPeriod
    (tmm : TopologyManagementModule) (currentTime : ℚ) : Bool :=
  tmm.predictedEvents.any fun event =>
    event.active && decide (event.T1 ≤ currentTime) && decide (currentTime ≤ event.T2)

/-- `LinkDetectionModule::MakeOrderedPair`: canonical smaller-first key. -/
def MakeOrderedPair (nodeA nodeB : Int) : NodePair :=
  (min nodeA nodeB, max nodeA nodeB)

/-- `LinkDetectionModule` (LDM, `src/modules/link-detection.h`): real and
reported link states plus the set of links forced DOWN by RFP. The
external `SetQuaggaLinkStateReal` / `AddAlternativeRoutes` calls issue
vtysh commands and do not feed back into this state, so they are not
part of the record. -/
structure LinkDetectionModule where
  realLinkStates : List (NodePair × Bool)
  reportedLinkStates : List (NodePair × Bool)
  forcedDownLinks : List NodePair
deriving Repr

/-- The LDM in its initial (default-constructed) state: empty maps. -/
def initLdm : LinkDetectionModule := ⟨[], [], []⟩

/-- `LinkDetectionModule::ForceLinkDown` (T1): insert the ordered pair
into `m_forcedDownLinks` and assign `m_reportedLinkStates[link] = false`. -/
def LinkDetectionModule.ForceLinkDown (ldm : LinkDetectionModule)
    (nodeA nodeB : Int) (_currentTime : ℚ) : LinkDetectionModule :=
  let link := MakeOrderedPair nodeA nodeB
  { ldm with
    forcedDownLinks := setInsert ldm.forcedDownLinks link,
    reportedLinkStates := mapSet ldm.reportedLinkStates link false }

/-- `LinkDetectionModule::RestoreNormalDetection` (T3): erase the pair
from `m_forcedDownLinks`, read `m_realLinkStates[link]` (`operator[]`
default-inserts `false` when absent, modelled by re-assigning the value
just read) and assign it to `m_reportedLinkStates[link]`. -/
def LinkDetectionModule.RestoreNormalDetection (ldm : LinkDetectionModule)
    (nodeA nodeB : Int) (_currentTime : ℚ) : LinkDetectionModule :=
  let link := MakeOrderedPair nodeA nodeB
  let realState := (mapFind ldm.realLinkStates link).getD false
  { realLinkStates := mapSet ldm.realLinkStates link realState,
    reportedLinkStates := mapSet ldm.reportedLinkStates link realState,
    forcedDownLinks := setErase ldm.forcedDownLinks link }

/-- `LinkDetectionModule::UpdateRealLinkState`: records the real state,
then returns early when the pair is forced DOWN, then returns early when
`tmm->IsInBldPeriod(nodeA, nodeB, currentTime)` holds (note: the raw
argument order is passed through to the TMM, not the ordered pair), and
otherwise reports the new value when it differs from the old real state.
The C++ guards `tmm` against null; the controller always passes a valid
pointer, so the model takes the TMM by value. -/
def LinkDetectionModule.UpdateRealLinkState (ldm : LinkDetectionModule)
    (nodeA nodeB : Int) (isUp : Bool) (currentTime : ℚ)
    (tmm : TopologyManagementModule) : LinkDetectionModule :=
  let link := MakeOrderedPair nodeA nodeB
  let oldState := (mapFind ldm.realLinkStates link).getD false
  let ldm' := { ldm with realLinkStates := mapSet ldm.realLinkStates link isUp }
  if link ∈ ldm.forcedDownLinks then ldm'
  else if tmm.IsInBldPeriod nodeA nodeB currentTime then ldm'
  else if isUp ≠ oldState then
    { ldm' with reportedLinkStates := mapSet ldm'.reportedLinkStates link isUp }
  else ldm'

/-- `LinkDetectionModule::GetReportedState`: `find`-based lookup (no
default insertion), `false` when the pair is absent. -/
def LinkDetectionModule.GetReportedState (ldm : LinkDetectionModule)
    (nodeA nodeB : Int) : Bool :=
  (mapFind ldm.reportedLinkStates (MakeOrderedPair nodeA nodeB)).getD false

/-- `LinkDetectionModule::GetRealState`: `find`-based lookup (no default
insertion), `false` when the pair is absent. -/
def LinkDetectionModule.GetRealState (ldm : LinkDetectionModule)
    (nodeA nodeB : Int) : Bool :=
  (mapFind ldm.realLinkStates (MakeOrderedPair nodeA nodeB)).getD false

/-- One call into the LDM public interface. -/
inductive LdmOp where
  | force (nodeA nodeB : Int) (t : ℚ)
  | restore (nodeA nodeB : Int) (t : ℚ)
  | update (nodeA nodeB : Int) (isUp : Bool) (t : ℚ) (tmm : TopologyManagementModule)

/-- Apply one LDM call to the module state. -/
def LdmOp.apply : LdmOp → LinkDetectionModule → LinkDetectionModule
  | .force a b t, s => s.ForceLinkDown a b t
  | .restore a b t, s => s.RestoreNormalDetection a b t
  | .update a b u t tmm, s => s.UpdateRealLinkState a b u t tmm

/-- Run a sequence of LDM calls from a given state. -/
def runLdm (ops : List LdmOp) (s : LinkDetectionModule) : LinkDetectionModule :=
  ops.foldl (fun s op => op.apply s) s

/-- The ordered pair an LDM call operates on. -/
def LdmOp.pairKey : LdmOp → NodePair
  | .force a b _ => MakeOrderedPair a b
  | .restore a b _ => MakeOrderedPair a b
  | .update a b _ _ _ => MakeOrderedPair a b

/-- Invariant: every forced-DOWN pair has reported state `false`. -/
def ForcedReportedFalse (s : LinkDetectionModule) : Prop :=
  ∀ p ∈ s.forcedDownLinks, (mapFind s.reportedLinkStates p).getD false = false

/-- A TMM holding one registered predicted event on pair `(0,1)` with
`T0 = 10`, hence window `[T1, T3] = [7, 10.5]`. -/
def tmmWindow01 : TopologyManagementModule :=
  initTmm.AddPredictableLinkDown 1 0 1 10

/-- One call to the external routing sink (`quagga-integration.h`):
`ApplyRouteUpdateReal(node, routeUpdate)` parsed and issued via vtysh, or
`ForceOspfConvergence()` (the global convergence trigger). -/
inductive SinkCall where
  | applyRoute (nodeId : Nat) (routeUpdate : String)
  | triggerConvergence
deriving DecidableEq, Repr

/-- `RouteManagementModule` (RMM, `src/modules/route-mgmt.h`): the BFU
(Blind Forwarding Update) flag, the pending-update queue, and the two
statistics counters. A queue entry pairs the node (by id) with the raw
route-update string. -/
structure RouteManagementModule where
  bfuActive : Bool
  pendingUpdates : List (Nat × String)
  routeUpdatesBlocked : Nat
  routeUpdatesApplied : Nat
deriving Repr, DecidableEq

/-- The RMM in its constructed state:
`m_bfuActive(false), m_routeUpdatesBlocked(0), m_routeUpdatesApplied(0)`. -/
def initRmm : RouteManagementModule := ⟨false, [], 0, 0⟩

/-- `RouteManagementModule::StartBfuPeriod` (T1): sets the flag. -/
def RouteManagementModule.StartBfuPeriod (rmm : RouteManagementModule)
    (_currentTime : ℚ) : RouteManagementModule :=
  { rmm with bfuActive := true }

/-- `RouteManagementModule::EndBfuPeriod` (T2): clears the flag, applies
every queued entry through the sink in queue order (incrementing the
applied counter per entry), clears the queue, then calls
`ForceOspfConvergence`. Returns the new state and the sink trace. -/
def RouteManagementModule.EndBfuPeriod (rmm : RouteManagementModule)
    (_currentTime : ℚ) : RouteManagementModule × List SinkCall :=
  ({ rmm with
      bfuActive := false,
      routeUpdatesApplied := rmm.routeUpdatesApplied + rmm.pendingUpdates.length,
      pendingUpdates := [] },
   rmm.pendingUpdates.map (fun u => SinkCall.applyRoute u.1 u.2)
     ++ [SinkCall.triggerConvergence])

/-- `RouteManagementModule::OnNewRoutingTable`: while buffering, enqueue
and count as blocked (no sink call); otherwise apply immediately through
the sink and count as applied. -/
def RouteManagementModule.OnNewRoutingTable (rmm : RouteManagementModule)
    (node : Nat) (routeUpdate : String) (_currentTime : ℚ) :
    RouteManagementModule × List SinkCall :=
  if rmm.bfuActive then
    ({ rmm with
        pendingUpdates := rmm.pendingUpdates ++ [(node, routeUpdate)],
        routeUpdatesBlocked := rmm.routeUpdatesBlocked + 1 }, [])
  else
    ({ rmm with routeUpdatesApplied := rmm.routeUpdatesApplied + 1 },
     [SinkCall.applyRoute node routeUpdate])

/-- `RouteManagementModule::GetBlockedUpdatesCount`. -/
def RouteManagementModule.GetBlockedUpdatesCount (rmm : RouteManagementModule) : Nat :=
  rmm.routeUpdatesBlocked

/-- `RouteManagementModule::GetAppliedUpdatesCount`. -/
def RouteManagementModule.GetAppliedUpdatesCount (rmm : RouteManagementModule) : Nat :=
  rmm.routeUpdatesApplied

/-- `RouteManagementModule::IsBfuActive`. -/
def RouteManagementModule.IsBfuActive (rmm : RouteManagementModule) : Bool :=
  rmm.bfuActive

/-- One call into the RMM public interface. -/
inductive RmmOp where
  | startBfu (t : ℚ)
  | endBfu (t : ℚ)
  | onNewRoutingTable (node : Nat) (routeUpdate : String) (t : ℚ)

/-- Apply one RMM call, returning the new state and its sink trace. -/
def RmmOp.apply : RmmOp → RouteManagementModule → RouteManagementModule × List SinkCall
  | .startBfu t, s => (s.StartBfuPeriod t, [])
  | .endBfu t, s => s.EndBfuPeriod t
  | .onNewRoutingTable n u t, s => s.OnNewRoutingTable n u t

/-- Run a sequence of RMM calls, concatenating the sink traces. -/
def runRmm : List RmmOp → RouteManagementModule → RouteManagementModule × List SinkCall
  | [], s => (s, [])
  | op :: rest, s =>
      let res := op.apply s
      let res' := runRmm rest res.1
      (res'.1, res.2 ++ res'.2)

/-- The submit calls of one buffering session, as RMM operations. -/
def submitOps (us : List (Nat × String × ℚ)) : List RmmOp :=
  us.map (fun u => RmmOp.onNewRoutingTable u.1 u.2.1 u.2.2)

/-- Erasure of a key from an association list (`std::map::erase`). -/
def mapErase {α : Type} (m : List (NodePair × α)) (k : NodePair) :
    List (NodePair × α) :=
  m.filter (fun e => e.1 ≠ k)

/-- `PerformanceAnalyzer::Metrics`: one aggregate (RFP or standard OSPF).
The C++ packet counters are unsigned; they are embedded as `ℤ` (no claim
exercises wraparound). -/
structure Metrics where
  packetsLost : Int
  routeOutageTotal : ℚ
  linkDownEvents : Nat
  detectionTimeTotal : ℚ
  realQuaggaModifications : Nat
deriving Repr

/-- Default-constructed `Metrics`: all zero. -/
def initMetrics : Metrics := ⟨0, 0, 0, 0, 0⟩

/-- `PerformanceAnalyzer::LinkEvent`: one in-flight measured event.
Times are in milliseconds (the analyzer multiplies the simulator clock
by 1000). -/
structure LinkEvent where
  linkDownTime : ℚ
  routeUpdateTime : ℚ
  detectionTime : ℚ
  isRfp : Bool
  packetsLostDuringOutage : Int
  completed : Bool
deriving Repr

/-- `PerformanceAnalyzer::MakeLinkKey`: the C++ builds the string
`"min-max"`; on sorted pairs that string key is in bijection with the
sorted pair, which is used as the key here. The swap mirrors
`if (nodeA > nodeB) std::swap(nodeA, nodeB)`. -/
def MakeLinkKey (nodeA nodeB : Int) : NodePair :=
  if nodeA > nodeB then (nodeB, nodeA) else (nodeA, nodeB)

/-- `PerformanceAnalyzer` (`src/modules/performance-analyzer.h`). -/
structure PerformanceAnalyzer where
  standardOspf : Metrics
  rfp : Metrics
  simulationStartTime : ℚ
  activeEvents : List (NodePair × LinkEvent)
  packetsSentTotal : Int
  packetsReceivedTotal : Int
  packetsAtLinkDown : Int
deriving Repr

/-- Default-constructed `PerformanceAnalyzer`. -/
def initAnalyzer : PerformanceAnalyzer :=
  ⟨initMetrics, initMetrics, 0, [], 0, 0, 0⟩

/-- `PerformanceAnalyzer::StartLinkDownEvent` at time `now` (ms): record
a fresh `LinkEvent` under the link key (RFP events pre-set
`routeUpdateTime = now`), and snapshot the sent-packet counter. -/
def PerformanceAnalyzer.StartLinkDownEvent (pa : PerformanceAnalyzer)
    (nodeA nodeB : Int) (isRfp : Bool) (now : ℚ) : PerformanceAnalyzer :=
  let key := MakeLinkKey nodeA nodeB
  let event : LinkEvent :=
    { linkDownTime := now,
      routeUpdateTime := if isRfp then now else 0,
      detectionTime := 0,
      isRfp := isRfp,
      packetsLostDuringOutage := 0,
      completed := false }
  { pa with
    activeEvents := mapSet pa.activeEvents key event,
    packetsAtLinkDown := pa.packetsSentTotal }

/-- `PerformanceAnalyzer::RecordRouteConvergence` at time `now` (ms):
when the event exists, for non-RFP events stamp `routeUpdateTime`, and
recompute the packets lost during the outage. -/
def PerformanceAnalyzer.RecordRouteConvergence (pa : PerformanceAnalyzer)
    (nodeA nodeB : Int) (now : ℚ) : PerformanceAnalyzer :=
  let key := MakeLinkKey nodeA nodeB
  match mapFind pa.activeEvents key with
  | none => pa
  | some event =>
      let event' :=
        { event with
          routeUpdateTime := if event.isRfp then event.routeUpdateTime else now,
          packetsLostDuringOutage :=
            pa.packetsSentTotal - pa.packetsAtLinkDown
              - (pa.packetsReceivedTotal - pa.packetsAtLinkDown) }
      { pa with activeEvents := mapSet pa.activeEvents key event' }

/-- `PerformanceAnalyzer::CompleteLinkEvent`: when the event exists, add
its outage (clamped at 0), packet loss, detection time and the supplied
Quagga-modification count to the matching aggregate, then erase it
(the C++ sets `completed = true` and immediately erases the entry). -/
def PerformanceAnalyzer.CompleteLinkEvent (pa : PerformanceAnalyzer)
    (nodeA nodeB : Int) (quaggaMods : Nat) : PerformanceAnalyzer :=
  let key := MakeLinkKey nodeA nodeB
  match mapFind pa.activeEvents key with
  | none => pa
  | some event =>
      let d := event.routeUpdateTime - event.linkDownTime
      let outageTime := if d < 0 then 0 else d
      if event.isRfp then
        { pa with
          rfp :=
            { packetsLost := pa.rfp.packetsLost + event.packetsLostDuringOutage,
              routeOutageTotal := pa.rfp.routeOutageTotal + outageTime,
              linkDownEvents := pa.rfp.linkDownEvents + 1,
              detectionTimeTotal := pa.rfp.detectionTimeTotal + event.detectionTime,
              realQuaggaModifications := pa.rfp.realQuaggaModifications + quaggaMods },
          activeEvents := mapErase pa.activeEvents key }
      else
        { pa with
          standardOspf :=
            { packetsLost := pa.standardOspf.packetsLost + event.packetsLostDuringOutage,
              routeOutageTotal := pa.standardOspf.routeOutageTotal + outageTime,
              linkDownEvents := pa.standardOspf.linkDownEvents + 1,
              detectionTimeTotal :=
                pa.standardOspf.detectionTimeTotal + event.detectionTime,
              realQuaggaModifications :=
                pa.standardOspf.realQuaggaModifications + quaggaMods },
          activeEvents := mapErase pa.activeEvents key }

/-- `PerformanceAnalyzer::RecordLinkDownEvent`: directly add one event's
figures to the chosen aggregate. -/
def PerformanceAnalyzer.RecordLinkDownEvent (pa : PerformanceAnalyzer)
    (useRfp : Bool) (outageTimeMs : ℚ) (packetsLost : Int)
    (detectionTimeMs : ℚ) (quaggaMods : Nat) : PerformanceAnalyzer :=
  if useRfp then
    { pa with
      rfp :=
        { packetsLost := pa.rfp.packetsLost + packetsLost,
          routeOutageTotal := pa.rfp.routeOutageTotal + outageTimeMs,
          linkDownEvents := pa.rfp.linkDownEvents + 1,
          detectionTimeTotal := pa.rfp.detectionTimeTotal + detectionTimeMs,
          realQuaggaModifications := pa.rfp.realQuaggaModifications + quaggaMods } }
  else
    { pa with
      standardOspf :=
        { packetsLost := pa.standardOspf.packetsLost + packetsLost,
          routeOutageTotal := pa.standardOspf.routeOutageTotal + outageTimeMs,
          linkDownEvents := pa.standardOspf.linkDownEvents + 1,
          detectionTimeTotal := pa.standardOspf.detectionTimeTotal + detectionTimeMs,
          realQuaggaModifications :=
            pa.standardOspf.realQuaggaModifications + quaggaMods } }

/-- `ValidateNodeIndices` (`src/helpers/quagga-integration.h`): reject
negative, out-of-range (against `NodeList::GetNNodes()`, passed here as
`totalNodes`) and equal identifiers. -/
def ValidateNodeIndices (nodeA nodeB : Int) (totalNodes : Nat) : Bool :=
  if nodeA < 0 ∨ nodeB < 0 then false
  else if (totalNodes : Int) ≤ nodeA ∨ (totalNodes : Int) ≤ nodeB then false
  else if nodeA = nodeB then false
  else true

/-- `SatnetOspfController::FindAlternativePath`: first node index below
`min(NodeList::GetNNodes(), 10)` different from both endpoints, `-1`
when none exists. -/
def FindAlternativePath (nodeA nodeB : Int) (totalNodes : Nat) : Int :=
  match (List.range (min totalNodes 10)).find?
      (fun i => (i : Int) ≠ nodeA ∧ (i : Int) ≠ nodeB) with
  | some i => (i : Int)
  | none => -1

/-- `SatnetOspfController::GenerateOspfRouteUpdate`: ADD when disclosed
up; DEL plus a best-effort alternate ADD when disclosed down. -/
def GenerateOspfRouteUpdate (nodeA nodeB : Int) (isUp : Bool)
    (totalNodes : Nat) : String :=
  if isUp then
    "ADD 10." ++ toString nodeB ++ ".0.0/16 10.0." ++ toString nodeA ++ ".1 1"
  else
    let base := "DEL 10." ++ toString nodeB ++ ".0.0/16 10.0." ++ toString nodeA ++ ".1"
    let alternativeNode := FindAlternativePath nodeA nodeB totalNodes
    if 0 ≤ alternativeNode then
      base ++ " ADD 10." ++ toString nodeB ++ ".0.0/16 10.0."
        ++ toString alternativeNode ++ ".1 5"
    else base

/-- The four timeline actions a registration schedules. -/
inductive TimelineMarker where
  | t1
  | t2
  | t0
  | t3
deriving DecidableEq, Repr

/-- `SatnetOspfController` (`src/applications/satnet-controller.h`):
the TMM, LDM, RMM and analyzer, plus the event and modification
counters. -/
structure SatnetOspfController where
  tmm : TopologyManagementModule
  ldm : LinkDetectionModule
  rmm : RouteManagementModule
  analyzer : PerformanceAnalyzer
  eventCounter : Nat
  lastEventTime : ℚ
  totalQuaggaModifications : Nat
deriving Repr

/-- The controller in its constructed state. -/
def initController : SatnetOspfController :=
  ⟨initTmm, initLdm, initRmm, initAnalyzer, 0, 0, 0⟩

/-- `SatnetOspfController::ExecuteT1Actions`: start the RFP measurement
(the analyzer works in ms, hence `currentTime * 1000`), force the link
DOWN (counting 2 Quagga modifications) and start the BFU period. -/
def SatnetOspfController.ExecuteT1Actions (c : SatnetOspfController)
    (nodeA nodeB : Int) (currentTime : ℚ) : SatnetOspfController :=
  { c with
    analyzer := c.analyzer.StartLinkDownEvent nodeA nodeB true (currentTime * 1000),
    ldm := c.ldm.ForceLinkDown nodeA nodeB currentTime,
    rmm := c.rmm.StartBfuPeriod currentTime,
    totalQuaggaModifications := c.totalQuaggaModifications + 2 }

/-- `SatnetOspfController::ExecuteT2Actions`: end the BFU period (flush
plus convergence trigger) and add the blocked count to the modification
counter. -/
def SatnetOspfController.ExecuteT2Actions (c : SatnetOspfController)
    (_nodeA _nodeB : Int) (currentTime : ℚ) : SatnetOspfController × List SinkCall :=
  let res := c.rmm.EndBfuPeriod currentTime
  ({ c with
      rmm := res.1,
      totalQuaggaModifications :=
        c.totalQuaggaModifications + res.1.GetBlockedUpdatesCount }, res.2)

/-- `SatnetOspfController::ExecuteT0Actions`: record convergence and
complete the per-event measurement — this, not T3, finalizes the
metrics. -/
def SatnetOspfController.ExecuteT0Actions (c : SatnetOspfController)
    (nodeA nodeB : Int) (currentTime : ℚ) : SatnetOspfController :=
  { c with
    analyzer :=
      (c.analyzer.RecordRouteConvergence nodeA nodeB (currentTime * 1000)).CompleteLinkEvent
        nodeA nodeB c.totalQuaggaModifications }

/-- `SatnetOspfController::ExecuteT3Actions`: restore normal detection
(counting 2 Quagga modifications); the analyzer is not touched. -/
def SatnetOspfController.ExecuteT3Actions (c : SatnetOspfController)
    (nodeA nodeB : Int) (currentTime : ℚ) : SatnetOspfController :=
  { c with
    ldm := c.ldm.RestoreNormalDetection nodeA nodeB currentTime,
    totalQuaggaModifications := c.totalQuaggaModifications + 2 }

/-- `SatnetOspfController::SchedulePredictableLinkDown`: validate the
node indices (rejecting with no state change and nothing scheduled),
register the event with the TMM, and — when `T1 > 0` — schedule the four
timeline actions and count the event. -/
def SatnetOspfController.SchedulePredictableLinkDown (c : SatnetOspfController)
    (linkId nodeA nodeB : Int) (eventTime : ℚ) (totalNodes : Nat) :
    SatnetOspfController × List (ℚ × TimelineMarker × Int × Int) :=
  if ValidateNodeIndices nodeA nodeB totalNodes = false then (c, [])
  else
    let tmm' := c.tmm.AddPredictableLinkDown linkId nodeA nodeB eventTime
    let event := mkPredictableLinkDownEvent linkId nodeA nodeB eventTime
    if 0 < event.T1 then
      ({ c with tmm := tmm', eventCounter := c.eventCounter + 1 },
       [(event.T1, .t1, nodeA, nodeB), (event.T2, .t2, nodeA, nodeB),
        (event.T0, .t0, nodeA, nodeB), (event.T3, .t3, nodeA, nodeB)])
    else
      ({ c with tmm := tmm' }, [])

/-- `SatnetOspfController::OnLinkStateChange`: always update the LDM
first (no validation), read back the disclosed state, and — when both
node pointers resolve (`NodeList::GetNode` is non-null exactly for
indices in `[0, totalNodes)`; a negative `int` cast to `uint32_t` is out
of range) — submit a synthesized route update and count the
modification; for a link-down outside every BLD period, record a
baseline OSPF event (40s detection + 100ms convergence, 15 packets, one
modification). -/
def SatnetOspfController.OnLinkStateChange (c : SatnetOspfController)
    (nodeA nodeB : Int) (isUp : Bool) (currentTime : ℚ) (totalNodes : Nat) :
    SatnetOspfController × List SinkCall :=
  let ldm' := c.ldm.UpdateRealLinkState nodeA nodeB isUp currentTime c.tmm
  let ospfState := ldm'.GetReportedState nodeA nodeB
  let c1 := { c with ldm := ldm' }
  let res :=
    if 0 ≤ nodeA ∧ nodeA < (totalNodes : Int) ∧ 0 ≤ nodeB ∧ nodeB < (totalNodes : Int) then
      let routeUpdate := GenerateOspfRouteUpdate nodeA nodeB ospfState totalNodes
      let rres := c1.rmm.OnNewRoutingTable nodeA.toNat routeUpdate currentTime
      ({ c1 with
          rmm := rres.1,
          totalQuaggaModifications := c1.totalQuaggaModifications + 1 }, rres.2)
    else (c1, [])
  if isUp then res
  else if res.1.tmm.IsInBldPeriod nodeA nodeB currentTime then res
  else
    ({ res.1 with
        analyzer := res.1.analyzer.RecordLinkDownEvent false 40100 15 40000 1 },
     res.2)

/-- The controller after the T1 actions of the event on pair `(0,1)` at
`t = 7` (the spec's `T0 = 20, Tc = 2, dT = 0.5` scenario shifted to
`T0 = 10`): the analyzer holds one in-flight RFP event. -/
def ctrlAfterT1 : SatnetOspfController := initController.ExecuteT1Actions 0 1 7

/-- The same controller after the T0 actions at `t = 10`. -/
def ctrlAfterT0 : SatnetOspfController := ctrlAfterT1.ExecuteT0Actions 0 1 10

/-- The in-flight RFP `LinkEvent` that `ctrlAfterT1` holds for `(0,1)`. -/
def rfpLinkEvent01 : LinkEvent :=
  { linkDownTime := 7 * 1000, routeUpdateTime := 7 * 1000, detectionTime := 0,
    isRfp := true, packetsLostDuringOutage := 0, completed := false }

theorem mapFind_mapSet_self {α : Type} (m : List (NodePair × α)) (k : NodePair) (v : α) :
    mapFind (mapSet m k v) k = some v := by
  induction m with
  | nil => simp [mapSet, mapFind]
  | cons hd tl ih =>
      obtain ⟨k', v'⟩ := hd
      by_cases h : k' = k
      · simp [mapSet, h, mapFind]
      · simp [mapSet, h, mapFind, ih]

theorem mapFind_mapSet_ne {α : Type} (m : List (NodePair × α)) (k k' : NodePair) (v : α)
    (h : k' ≠ k) : mapFind (mapSet m k' v) k = mapFind m k := by
  induction m with
  | nil => simp [mapSet, mapFind, h]
  | cons hd tl ih =>
      obtain ⟨k₀, v₀⟩ := hd
      by_cases h0 : k₀ = k'
      · subst h0
        simp [mapSet, mapFind, h]
      · by_cases h1 : k₀ = k
        · simp [mapSet, h0, mapFind, h1, Ne.symm h]
        · simp [mapSet, h0, mapFind, h1, ih]

theorem mem_setInsert_iff (s : List NodePair) (k k' : NodePair) :
    k' ∈ setInsert s k ↔ k' = k ∨ k' ∈ s := by
  by_cases h : k ∈ s
  · simp only [setInsert, if_pos h]
    constructor
    · intro hm; exact Or.inr hm
    · rintro (rfl | hm)
      · exact h
      · exact hm
  · simp [setInsert, if_neg h]

theorem mem_setErase_iff (s : List NodePair) (k k' : NodePair) :
    k' ∈ setErase s k ↔ k' ∈ s ∧ k' ≠ k := by
  simp [setErase, List.mem_filter]

/-- C3: for every `T0 > Tc + 2·dT`, the timeline calculation
(`PredictableLinkDownEvent` constructor) yields exactly
`T1 = T0 − Tc − 2·dT`, `T2 = T0 − dT`, `T3 = T0 + dT`, these satisfy
`T1 < T2 < T0 < T3` and `T3 − T1 = Tc + 3·dT`, and equal inputs give
equal markers (the computation is a pure function). -/
theorem deriveMarkers_ordered_of_far_T0 (lid a b : Int) (t0 t0' : ℚ)
    (h : RFP_CONVERGENCE_TIME_TC + 2 * RFP_SAFETY_MARGIN_DT < t0)
    (hdet : t0' = t0) :
    (mkPredictableLinkDownEvent lid a b t0).T1
        = t0 - RFP_CONVERGENCE_TIME_TC - 2 * RFP_SAFETY_MARGIN_DT ∧
    (mkPredictableLinkDownEvent lid a b t0).T2 = t0 - RFP_SAFETY_MARGIN_DT ∧
    (mkPredictableLinkDownEvent lid a b t0).T3 = t0 + RFP_SAFETY_MARGIN_DT ∧
    (mkPredictableLinkDownEvent lid a b t0).T0 = t0 ∧
    (mkPredictableLinkDownEvent lid a b t0).T1 < (mkPredictableLinkDownEvent lid a b t0).T2 ∧
    (mkPredictableLinkDownEvent lid a b t0).T2 < (mkPredictableLinkDownEvent lid a b t0).T0 ∧
    (mkPredictableLinkDownEvent lid a b t0).T0 < (mkPredictableLinkDownEvent lid a b t0).T3 ∧
    (mkPredictableLinkDownEvent lid a b t0).T3 - (mkPredictableLinkDownEvent lid a b t0).T1
        = RFP_CONVERGENCE_TIME_TC + 3 * RFP_SAFETY_MARGIN_DT ∧
    mkPredictableLinkDownEvent lid a b t0' = mkPredictableLinkDownEvent lid a b t0 := by
  have hTc : RFP_CONVERGENCE_TIME_TC = 2 := rfl
  have hdT : RFP_SAFETY_MARGIN_DT = 1 / 2 := rfl
  have h3 : (3 : ℚ) < t0 := by rw [hTc, hdT] at h; linarith
  have hcond : ¬(t0 - RFP_CONVERGENCE_TIME_TC - 2 * RFP_SAFETY_MARGIN_DT < 0) := by
    rw [hTc, hdT]; linarith
  subst hdet
  simp only [mkPredictableLinkDownEvent, if_neg hcond]
  rw [hTc, hdT]
  refine ⟨?_, ?_, ?_, ?_, ?_, ?_, ?_, ?_, ?_⟩ <;>
    first
      | trivial
      | linarith

/-- Witness for C3 at the spec's own example `T0 = 20` (with
`Tc = 2, dT = 0.5`): markers `T1 = 17`, `T2 = 19.5`, `T3 = 20.5`. -/
theorem deriveMarkers_ordered_of_far_T0_witness :
    (RFP_CONVERGENCE_TIME_TC + 2 * RFP_SAFETY_MARGIN_DT < (20 : ℚ) ∧ (20 : ℚ) = 20) ∧
    ((mkPredictableLinkDownEvent 1 0 1 20).T1
        = 20 - RFP_CONVERGENCE_TIME_TC - 2 * RFP_SAFETY_MARGIN_DT ∧
    (mkPredictableLinkDownEvent 1 0 1 20).T2 = 20 - RFP_SAFETY_MARGIN_DT ∧
    (mkPredictableLinkDownEvent 1 0 1 20).T3 = 20 + RFP_SAFETY_MARGIN_DT ∧
    (mkPredictableLinkDownEvent 1 0 1 20).T0 = 20 ∧
    (mkPredictableLinkDownEvent 1 0 1 20).T1 < (mkPredictableLinkDownEvent 1 0 1 20).T2 ∧
    (mkPredictableLinkDownEvent 1 0 1 20).T2 < (mkPredictableLinkDownEvent 1 0 1 20).T0 ∧
    (mkPredictableLinkDownEvent 1 0 1 20).T0 < (mkPredictableLinkDownEvent 1 0 1 20).T3 ∧
    (mkPredictableLinkDownEvent 1 0 1 20).T3 - (mkPredictableLinkDownEvent 1 0 1 20).T1
        = RFP_CONVERGENCE_TIME_TC + 3 * RFP_SAFETY_MARGIN_DT ∧
    mkPredictableLinkDownEvent 1 0 1 20 = mkPredictableLinkDownEvent 1 0 1 20) :=
  ⟨⟨by norm_num [RFP_CONVERGENCE_TIME_TC, RFP_SAFETY_MARGIN_DT], rfl⟩,
   deriveMarkers_ordered_of_far_T0 1 0 1 20 20
     (by norm_num [RFP_CONVERGENCE_TIME_TC, RFP_SAFETY_MARGIN_DT]) rfl⟩

/-- C4 counterexample: at `T0 = Tc + 2·dT = 3` exactly (so `T0 ≤ Tc + 2·dT`,
the claim's hypothesis), the code does not clamp (the guard is `T1 < 0`,
and `T1 = 0`), so the resulting `T1` is `0`, not the claimed epsilon `0.1`. -/
theorem clamp_at_boundary_T1_is_zero :
    (3 : ℚ) ≤ RFP_CONVERGENCE_TIME_TC + 2 * RFP_SAFETY_MARGIN_DT ∧
    (mkPredictableLinkDownEvent 7 0 1 3).T1 = 0 ∧
    (mkPredictableLinkDownEvent 7 0 1 3).T1 ≠ 1 / 10 := by
  norm_num [mkPredictableLinkDownEvent, RFP_CONVERGENCE_TIME_TC, RFP_SAFETY_MARGIN_DT]

/-- C4 (amended: clamping applies when `T0 < Tc + 2·dT`, i.e. exactly when
the naive `T1` is negative; at `T0 = Tc + 2·dT` no clamping occurs and
`T1 = 0`): for every requested `T0 < Tc + 2·dT` the constructor clamps
rather than errors, with `T1 = 0.1` and the re-derivation order
`T2 = T1 + Tc + dT`, `T3 = T2 + 2·dT`, `T0 = T3 − dT`, and the resulting
markers satisfy `T1 < T2 < T0 < T3`. -/
theorem deriveMarkers_clamped_of_near_T0 (lid a b : Int) (t0 : ℚ)
    (h : t0 < RFP_CONVERGENCE_TIME_TC + 2 * RFP_SAFETY_MARGIN_DT) :
    (mkPredictableLinkDownEvent lid a b t0).T1 = 1 / 10 ∧
    (mkPredictableLinkDownEvent lid a b t0).T2
        = (mkPredictableLinkDownEvent lid a b t0).T1
            + RFP_CONVERGENCE_TIME_TC + RFP_SAFETY_MARGIN_DT ∧
    (mkPredictableLinkDownEvent lid a b t0).T3
        = (mkPredictableLinkDownEvent lid a b t0).T2 + 2 * RFP_SAFETY_MARGIN_DT ∧
    (mkPredictableLinkDownEvent lid a b t0).T0
        = (mkPredictableLinkDownEvent lid a b t0).T3 - RFP_SAFETY_MARGIN_DT ∧
    (mkPredictableLinkDownEvent lid a b t0).T1 < (mkPredictableLinkDownEvent lid a b t0).T2 ∧
    (mkPredictableLinkDownEvent lid a b t0).T2 < (mkPredictableLinkDownEvent lid a b t0).T0 ∧
    (mkPredictableLinkDownEvent lid a b t0).T0 < (mkPredictableLinkDownEvent lid a b t0).T3 := by
  have hTc : RFP_CONVERGENCE_TIME_TC = 2 := rfl
  have hdT : RFP_SAFETY_MARGIN_DT = 1 / 2 := rfl
  have hcond : t0 - RFP_CONVERGENCE_TIME_TC - 2 * RFP_SAFETY_MARGIN_DT < 0 := by
    rw [hTc, hdT] at h ⊢; linarith
  simp only [mkPredictableLinkDownEvent, if_pos hcond]
  rw [hTc, hdT]
  norm_num

/-- Witness for the amended C4 at `T0 = 1 < 3 = Tc + 2·dT`: the clamped
markers are `T1 = 0.1`, `T2 = 2.6`, `T3 = 3.6`, effective `T0 = 3.1`. -/
theorem deriveMarkers_clamped_of_near_T0_witness :
    (1 : ℚ) < RFP_CONVERGENCE_TIME_TC + 2 * RFP_SAFETY_MARGIN_DT ∧
    ((mkPredictableLinkDownEvent 2 0 1 1).T1 = 1 / 10 ∧
    (mkPredictableLinkDownEvent 2 0 1 1).T2
        = (mkPredictableLinkDownEvent 2 0 1 1).T1
            + RFP_CONVERGENCE_TIME_TC + RFP_SAFETY_MARGIN_DT ∧
    (mkPredictableLinkDownEvent 2 0 1 1).T3
        = (mkPredictableLinkDownEvent 2 0 1 1).T2 + 2 * RFP_SAFETY_MARGIN_DT ∧
    (mkPredictableLinkDownEvent 2 0 1 1).T0
        = (mkPredictableLinkDownEvent 2 0 1 1).T3 - RFP_SAFETY_MARGIN_DT ∧
    (mkPredictableLinkDownEvent 2 0 1 1).T1 < (mkPredictableLinkDownEvent 2 0 1 1).T2 ∧
    (mkPredictableLinkDownEvent 2 0 1 1).T2 < (mkPredictableLinkDownEvent 2 0 1 1).T0 ∧
    (mkPredictableLinkDownEvent 2 0 1 1).T0 < (mkPredictableLinkDownEvent 2 0 1 1).T3) :=
  ⟨by norm_num [RFP_CONVERGENCE_TIME_TC, RFP_SAFETY_MARGIN_DT],
   deriveMarkers_clamped_of_near_T0 2 0 1 1
     (by norm_num [RFP_CONVERGENCE_TIME_TC, RFP_SAFETY_MARGIN_DT])⟩

theorem forcedReportedFalse_apply (op : LdmOp) (s : LinkDetectionModule)
    (h : ForcedReportedFalse s) : ForcedReportedFalse (op.apply s) := by
  cases op with
  | force a b t =>
      intro p hp
      simp only [LdmOp.apply, LinkDetectionModule.ForceLinkDown] at hp ⊢
      by_cases hpk : p = MakeOrderedPair a b
      · subst hpk
        rw [mapFind_mapSet_self]
        rfl
      · rw [mapFind_mapSet_ne _ _ _ _ (Ne.symm hpk)]
        exact h p ((mem_setInsert_iff _ _ _).1 hp |>.resolve_left hpk)
  | restore a b t =>
      intro p hp
      simp only [LdmOp.apply, LinkDetectionModule.RestoreNormalDetection] at hp ⊢
      obtain ⟨hps, hpk⟩ := (mem_setErase_iff _ _ _).1 hp
      rw [mapFind_mapSet_ne _ _ _ _ (Ne.symm hpk)]
      exact h p hps
  | update a b u t tmm =>
      intro p hp
      simp only [LdmOp.apply, LinkDetectionModule.UpdateRealLinkState] at hp ⊢
      by_cases hf : MakeOrderedPair a b ∈ s.forcedDownLinks
      · simp only [if_pos hf] at hp ⊢
        exact h p hp
      · simp only [if_neg hf] at hp ⊢
        by_cases hb : tmm.IsInBldPeriod a b t
        · simp only [if_pos hb] at hp ⊢
          exact h p hp
        · simp only [if_neg hb] at hp ⊢
          by_cases hu : u ≠ (mapFind s.realLinkStates (MakeOrderedPair a b)).getD false
          · simp only [if_pos hu] at hp ⊢
            have hpk : p ≠ MakeOrderedPair a b := fun hpe => hf (hpe ▸ hp)
            rw [mapFind_mapSet_ne _ _ _ _ (Ne.symm hpk)]
            exact h p hp
          · simp only [if_neg hu] at hp ⊢
            exact h p hp

theorem forcedReportedFalse_run (ops : List LdmOp) (s : LinkDetectionModule)
    (h : ForcedReportedFalse s) : ForcedReportedFalse (runLdm ops s) := by
  induction ops generalizing s with
  | nil => exact h
  | cons op rest ih => exact ih _ (forcedReportedFalse_apply op s h)

/-- C5: after any sequence of LDM calls from the initial state, whenever
a pair is in `m_forcedDownLinks` its reported state is `false`,
regardless of the real state; in particular it stays `false` across
`UpdateRealLinkState(..., isUp=true, ...)` calls until
`RestoreNormalDetection` removes the pair from the forced set. -/
theorem forcedDown_implies_reported_false (ops : List LdmOp) (a b : Int)
    (h : MakeOrderedPair a b ∈ (runLdm ops initLdm).forcedDownLinks) :
    (runLdm ops initLdm).GetReportedState a b = false := by
  have hinv : ForcedReportedFalse (runLdm ops initLdm) := by
    apply forcedReportedFalse_run
    intro p hp
    simp [initLdm] at hp
  exact hinv _ h

/-- Witness for C5: force pair `(0,1)` down at `t=5`, then call
`UpdateRealLinkState(0, 1, isUp=true)` at `t=6`; the pair stays forced
and its reported state is still `false`. -/
theorem forcedDown_implies_reported_false_witness :
    MakeOrderedPair 0 1 ∈
      (runLdm [.force 0 1 5, .update 0 1 true 6 initTmm] initLdm).forcedDownLinks ∧
    (runLdm [.force 0 1 5, .update 0 1 true 6 initTmm] initLdm).GetReportedState 0 1
      = false :=
  ⟨by decide,
   forcedDown_implies_reported_false [.force 0 1 5, .update 0 1 true 6 initTmm] 0 1
     (by decide)⟩

theorem ldmOp_preserves_other_pairs (op : LdmOp) (s : LinkDetectionModule)
    (k : NodePair) (h : op.pairKey ≠ k) :
    mapFind (op.apply s).realLinkStates k = mapFind s.realLinkStates k ∧
    mapFind (op.apply s).reportedLinkStates k = mapFind s.reportedLinkStates k := by
  cases op with
  | force a b t =>
      simp only [LdmOp.pairKey] at h
      simp only [LdmOp.apply, LinkDetectionModule.ForceLinkDown]
      exact ⟨by trivial, mapFind_mapSet_ne _ _ _ _ h⟩
  | restore a b t =>
      simp only [LdmOp.pairKey] at h
      simp only [LdmOp.apply, LinkDetectionModule.RestoreNormalDetection]
      exact ⟨mapFind_mapSet_ne _ _ _ _ h, mapFind_mapSet_ne _ _ _ _ h⟩
  | update a b u t tmm =>
      simp only [LdmOp.pairKey] at h
      simp only [LdmOp.apply, LinkDetectionModule.UpdateRealLinkState]
      by_cases hf : MakeOrderedPair a b ∈ s.forcedDownLinks
      · simp only [if_pos hf]
        exact ⟨mapFind_mapSet_ne _ _ _ _ h, by trivial⟩
      · simp only [if_neg hf]
        by_cases hb : tmm.IsInBldPeriod a b t
        · simp only [if_pos hb]
          exact ⟨mapFind_mapSet_ne _ _ _ _ h, by trivial⟩
        · simp only [if_neg hb]
          by_cases hu : u ≠ (mapFind s.realLinkStates (MakeOrderedPair a b)).getD false
          · simp only [if_pos hu]
            exact ⟨mapFind_mapSet_ne _ _ _ _ h, mapFind_mapSet_ne _ _ _ _ h⟩
          · simp only [if_neg hu]
            exact ⟨mapFind_mapSet_ne _ _ _ _ h, by trivial⟩

theorem runLdm_preserves_other_pairs (ops : List LdmOp) (s : LinkDetectionModule)
    (k : NodePair) (h : ∀ op ∈ ops, op.pairKey ≠ k) :
    mapFind (runLdm ops s).realLinkStates k = mapFind s.realLinkStates k ∧
    mapFind (runLdm ops s).reportedLinkStates k = mapFind s.reportedLinkStates k := by
  induction ops generalizing s with
  | nil => exact ⟨rfl, rfl⟩
  | cons op rest ih =>
      have hop := ldmOp_preserves_other_pairs op s k (h op (by simp))
      have hrest := ih (op.apply s) (fun o ho => h o (by simp [ho]))
      exact ⟨hrest.1.trans hop.1, hrest.2.trans hop.2⟩

/-- C9: for a node pair never named (in either order) by any LDM call,
`GetReportedState` and `GetRealState` both return `false` — the link is
treated as down by default.  Both accessors are `find`-based lookups and
are embedded as pure functions of the module state: they mutate
nothing. -/
theorem untouched_pair_accessors_false (ops : List LdmOp) (a b : Int)
    (h : ∀ op ∈ ops, op.pairKey ≠ MakeOrderedPair a b) :
    (runLdm ops initLdm).GetReportedState a b = false ∧
    (runLdm ops initLdm).GetRealState a b = false := by
  have hpres := runLdm_preserves_other_pairs ops initLdm (MakeOrderedPair a b) h
  unfold LinkDetectionModule.GetReportedState LinkDetectionModule.GetRealState
  rw [hpres.1, hpres.2]
  exact ⟨rfl, rfl⟩

/-- Witness for C9: with operations touching pairs `(2,3)` and `(0,5)`
only, the untouched pair `(0,1)` reads `false` from both accessors. -/
theorem untouched_pair_accessors_false_witness :
    (∀ op ∈ ([.force 2 3 1, .update 0 5 true 2 initTmm] : List LdmOp),
        op.pairKey ≠ MakeOrderedPair 0 1) ∧
    ((runLdm [.force 2 3 1, .update 0 5 true 2 initTmm] initLdm).GetReportedState 0 1
        = false ∧
     (runLdm [.force 2 3 1, .update 0 5 true 2 initTmm] initLdm).GetRealState 0 1
        = false) :=
  ⟨by decide,
   untouched_pair_accessors_false [.force 2 3 1, .update 0 5 true 2 initTmm] 0 1
     (by decide)⟩

theorem tmmWindow01_events :
    tmmWindow01.predictedEvents
      = [{ linkId := 1, nodeA := 0, nodeB := 1,
           T0 := 10, T1 := 7, T2 := 19/2, T3 := 21/2, active := true }] := by
  have hcond : ¬((10 : ℚ) - RFP_CONVERGENCE_TIME_TC - 2 * RFP_SAFETY_MARGIN_DT < 0) := by
    norm_num [RFP_CONVERGENCE_TIME_TC, RFP_SAFETY_MARGIN_DT]
  simp only [tmmWindow01, TopologyManagementModule.AddPredictableLinkDown, initTmm,
    mkPredictableLinkDownEvent, if_neg hcond]
  norm_num [RFP_CONVERGENCE_TIME_TC, RFP_SAFETY_MARGIN_DT]

theorem isInBldPeriod_window01_fwd : tmmWindow01.IsInBldPeriod 0 1 8 = true := by
  simp only [TopologyManagementModule.IsInBldPeriod, tmmWindow01_events, List.any_cons,
    List.any_nil]
  norm_num

theorem isInBldPeriod_window01_rev : tmmWindow01.IsInBldPeriod 1 0 8 = false := by
  simp only [TopologyManagementModule.IsInBldPeriod, tmmWindow01_events, List.any_cons,
    List.any_nil]
  norm_num

/-- C1 (code bug): with an active masking window registered on pair
`(0,1)` (window `[7, 10.5]`, probed at `t = 8`), a single
`UpdateRealLinkState(1, 0, isUp=true, 8)` call naming the pair in the
reversed argument order changes the reported state of the pair from
`false` to `true`: `IsInBldPeriod`'s pair-matching disjunct
`(event.nodeA == nodeB && event.nodeA == nodeA)` never consults
`event.nodeB`, so the reversed-order call is not masked. -/
theorem maskingWindow_reversed_call_changes_reported :
    tmmWindow01.IsInBldPeriod 0 1 8 = true ∧
    (7 : ℚ) ≤ 8 ∧ (8 : ℚ) ≤ 10.5 ∧
    initLdm.GetReportedState 0 1 = false ∧
    (initLdm.UpdateRealLinkState 1 0 true 8 tmmWindow01).GetReportedState 0 1 = true := by
  refine ⟨isInBldPeriod_window01_fwd, by norm_num, by norm_num, rfl, ?_⟩
  simp [LinkDetectionModule.UpdateRealLinkState, isInBldPeriod_window01_rev, initLdm,
    LinkDetectionModule.GetReportedState, MakeOrderedPair, mapFind, mapSet,
    min_def, max_def]

/-- C6 (code bug): the masking-window predicate is not order-independent:
for the event registered on `(0,1)` and probe time `8` inside the window,
`IsInBldPeriod(0, 1, 8)` is `true` but `IsInBldPeriod(1, 0, 8)` is
`false`, because the second pair-matching disjunct compares
`event.nodeA` against both arguments instead of matching the swapped
pair. -/
theorem isInBldPeriod_not_order_independent :
    tmmWindow01.IsInBldPeriod 0 1 8 = true ∧
    tmmWindow01.IsInBldPeriod 1 0 8 = false :=
  ⟨isInBldPeriod_window01_fwd, isInBldPeriod_window01_rev⟩

theorem runRmm_append (ops1 ops2 : List RmmOp) (s : RouteManagementModule) :
    runRmm (ops1 ++ ops2) s
      = ((runRmm ops2 (runRmm ops1 s).1).1,
         (runRmm ops1 s).2 ++ (runRmm ops2 (runRmm ops1 s).1).2) := by
  induction ops1 generalizing s with
  | nil => simp [runRmm]
  | cons op rest ih => simp [runRmm, ih]

theorem runRmm_submits_buffering (us : List (Nat × String × ℚ))
    (s : RouteManagementModule) (h : s.bfuActive = true) :
    runRmm (submitOps us) s
      = ({ s with
            pendingUpdates := s.pendingUpdates ++ us.map (fun u => (u.1, u.2.1)),
            routeUpdatesBlocked := s.routeUpdatesBlocked + us.length }, []) := by
  induction us generalizing s with
  | nil => simp [submitOps, runRmm]
  | cons u rest ih =>
      simp only [submitOps, List.map_cons, runRmm, RmmOp.apply,
        RouteManagementModule.OnNewRoutingTable, if_pos h]
      simp only [submitOps] at ih
      rw [ih { s with
                pendingUpdates := s.pendingUpdates ++ [(u.1, u.2.1)],
                routeUpdatesBlocked := s.routeUpdatesBlocked + 1 } h]
      simp only [Prod.mk.injEq, RouteManagementModule.mk.injEq, List.nil_append,
        List.append_nil, List.map_cons, List.length_cons, List.append_assoc,
        List.cons_append, List.singleton_append]
      refine ⟨⟨by trivial, by simp, by omega, by trivial⟩, by trivial⟩

theorem runRmm_session (s : RouteManagementModule) (us : List (Nat × String × ℚ))
    (t1 : ℚ) (hpend : s.pendingUpdates = []) :
    runRmm (RmmOp.startBfu t1 :: submitOps us) s
      = ({ bfuActive := true,
           pendingUpdates := us.map (fun u => (u.1, u.2.1)),
           routeUpdatesBlocked := s.routeUpdatesBlocked + us.length,
           routeUpdatesApplied := s.routeUpdatesApplied }, []) := by
  have h := runRmm_submits_buffering us { s with bfuActive := true } rfl
  simp only [runRmm, RmmOp.apply, RouteManagementModule.StartBfuPeriod]
  rw [h]
  simp [hpend]

/-- C2 (amended: the "blocked" counter is cumulative across buffering
sessions and is never reset, so at flush time it equals its value at
`StartBfuPeeriod` plus the queue length; within a first session, where it
starts at 0, that is the queue length): for every buffering session
(`StartBfuPeriod`, then any submits, then `EndBfuPeriod`) started in a
state with an empty queue, no submitted update reaches the sink before
`EndBfuPeriod`; the session's sink trace applies exactly the submitted
updates, once each, in submission order, followed by the convergence
trigger; at the moment of flush the blocked counter has grown by exactly
the queue length; the applied counter grows by the number of flushed
updates; and no RMM operation ever decreases the applied counter. -/
theorem bfu_session_exactly_once_in_order (s : RouteManagementModule)
    (us : List (Nat × String × ℚ)) (t1 t2 : ℚ)
    (op : RmmOp) (s' : RouteManagementModule)
    (hpend : s.pendingUpdates = []) :
    (runRmm (RmmOp.startBfu t1 :: submitOps us) s).2 = [] ∧
    (runRmm (RmmOp.startBfu t1 :: submitOps us) s).1.routeUpdatesBlocked
        = s.routeUpdatesBlocked + us.length ∧
    (runRmm (RmmOp.startBfu t1 :: submitOps us) s).1.pendingUpdates.length = us.length ∧
    (runRmm ((RmmOp.startBfu t1 :: submitOps us) ++ [RmmOp.endBfu t2]) s).2
        = us.map (fun u => SinkCall.applyRoute u.1 u.2.1)
            ++ [SinkCall.triggerConvergence] ∧
    (runRmm ((RmmOp.startBfu t1 :: submitOps us) ++ [RmmOp.endBfu t2]) s).1.routeUpdatesApplied
        = s.routeUpdatesApplied + us.length ∧
    s'.routeUpdatesApplied ≤ (op.apply s').1.routeUpdatesApplied := by
  have h1 := runRmm_session s us t1 hpend
  have h2 := runRmm_append (RmmOp.startBfu t1 :: submitOps us) [RmmOp.endBfu t2] s
  rw [h1] at h2
  have h3 : runRmm [RmmOp.endBfu t2]
      ({ bfuActive := true,
         pendingUpdates := us.map (fun u => (u.1, u.2.1)),
         routeUpdatesBlocked := s.routeUpdatesBlocked + us.length,
         routeUpdatesApplied := s.routeUpdatesApplied } : RouteManagementModule)
      = ({ bfuActive := false,
           pendingUpdates := [],
           routeUpdatesBlocked := s.routeUpdatesBlocked + us.length,
           routeUpdatesApplied := s.routeUpdatesApplied + us.length },
         us.map (fun u => SinkCall.applyRoute u.1 u.2.1)
           ++ [SinkCall.triggerConvergence]) := by
    simp [runRmm, RmmOp.apply, RouteManagementModule.EndBfuPeriod, List.map_map,
      Function.comp_def]
  rw [h3] at h2
  refine ⟨by rw [h1], by rw [h1], by rw [h1]; simp, by rw [h2]; simp, by rw [h2], ?_⟩
  cases op with
  | startBfu t => simp [RmmOp.apply, RouteManagementModule.StartBfuPeriod]
  | endBfu t =>
      simp [RmmOp.apply, RouteManagementModule.EndBfuPeriod]
  | onNewRoutingTable n u t =>
      by_cases hb : s'.bfuActive
      · simp [RmmOp.apply, RouteManagementModule.OnNewRoutingTable, hb]
      · simp [RmmOp.apply, RouteManagementModule.OnNewRoutingTable, hb]

/-- Witness for C2: a fresh RMM, one session submitting two updates; the
flush applies both in order then triggers convergence. -/
theorem bfu_session_exactly_once_in_order_witness :
    initRmm.pendingUpdates = [] ∧
    ((runRmm (RmmOp.startBfu 0 :: submitOps [(1, "r1", 0), (2, "r2", 0)]) initRmm).2 = [] ∧
    (runRmm (RmmOp.startBfu 0 :: submitOps [(1, "r1", 0), (2, "r2", 0)])
        initRmm).1.routeUpdatesBlocked
        = initRmm.routeUpdatesBlocked + ([(1, "r1", 0), (2, "r2", 0)] :
            List (Nat × String × ℚ)).length ∧
    (runRmm (RmmOp.startBfu 0 :: submitOps [(1, "r1", 0), (2, "r2", 0)])
        initRmm).1.pendingUpdates.length
        = ([(1, "r1", 0), (2, "r2", 0)] : List (Nat × String × ℚ)).length ∧
    (runRmm ((RmmOp.startBfu 0 :: submitOps [(1, "r1", 0), (2, "r2", 0)])
        ++ [RmmOp.endBfu 1]) initRmm).2
        = ([(1, "r1", 0), (2, "r2", 0)] : List (Nat × String × ℚ)).map
            (fun u => SinkCall.applyRoute u.1 u.2.1) ++ [SinkCall.triggerConvergence] ∧
    (runRmm ((RmmOp.startBfu 0 :: submitOps [(1, "r1", 0), (2, "r2", 0)])
        ++ [RmmOp.endBfu 1]) initRmm).1.routeUpdatesApplied
        = initRmm.routeUpdatesApplied + ([(1, "r1", 0), (2, "r2", 0)] :
            List (Nat × String × ℚ)).length ∧
    initRmm.routeUpdatesApplied ≤ ((RmmOp.endBfu 2).apply initRmm).1.routeUpdatesApplied) :=
  ⟨rfl,
   bfu_session_exactly_once_in_order initRmm [(1, "r1", 0), (2, "r2", 0)] 0 1
     (RmmOp.endBfu 2) initRmm rfl⟩

/-- C2 counterexample: the "blocked" counter is never reset, so at the
flush of a second buffering session it does not equal the queue length:
after `startBfu, submit, endBfu, startBfu, submit` the counter is 2 but
the queue holds 1 entry. -/
theorem blocked_counter_not_queue_length_on_second_session :
    (runRmm [RmmOp.startBfu 0, RmmOp.onNewRoutingTable 1 "r1" 0, RmmOp.endBfu 1,
             RmmOp.startBfu 2, RmmOp.onNewRoutingTable 2 "r2" 3]
        initRmm).1.routeUpdatesBlocked = 2 ∧
    (runRmm [RmmOp.startBfu 0, RmmOp.onNewRoutingTable 1 "r1" 0, RmmOp.endBfu 1,
             RmmOp.startBfu 2, RmmOp.onNewRoutingTable 2 "r2" 3]
        initRmm).1.pendingUpdates.length = 1 ∧
    (runRmm [RmmOp.startBfu 0, RmmOp.onNewRoutingTable 1 "r1" 0, RmmOp.endBfu 1,
             RmmOp.startBfu 2, RmmOp.onNewRoutingTable 2 "r2" 3]
        initRmm).1.routeUpdatesBlocked
      ≠ (runRmm [RmmOp.startBfu 0, RmmOp.onNewRoutingTable 1 "r1" 0, RmmOp.endBfu 1,
                 RmmOp.startBfu 2, RmmOp.onNewRoutingTable 2 "r2" 3]
          initRmm).1.pendingUpdates.length := by
  refine ⟨rfl, rfl, ?_⟩
  decide

theorem count_triggerConvergence_map_applyRoute (l : List (Nat × String)) :
    ((l.map (fun u => SinkCall.applyRoute u.1 u.2)).count SinkCall.triggerConvergence) = 0 := by
  induction l with
  | nil => rfl
  | cons hd tl ih => simpa [List.count_cons] using ih

/-- C10: `EndBfuPeriod` is unguarded: from every state — buffering
active or not — it clears the flag, applies exactly the currently queued
entries in order, clears the queue, and issues the global convergence
trigger; two consecutive calls therefore issue the convergence trigger
twice (the operation is not idempotent at the sink boundary). -/
theorem endBfuPeriod_unguarded (s : RouteManagementModule) (t t' : ℚ) :
    (s.EndBfuPeriod t).1.bfuActive = false ∧
    (s.EndBfuPeriod t).1.pendingUpdates = [] ∧
    (s.EndBfuPeriod t).1.routeUpdatesApplied
        = s.routeUpdatesApplied + s.pendingUpdates.length ∧
    (s.EndBfuPeriod t).2
        = s.pendingUpdates.map (fun u => SinkCall.applyRoute u.1 u.2)
            ++ [SinkCall.triggerConvergence] ∧
    ((s.EndBfuPeriod t).2).count SinkCall.triggerConvergence
        + (((s.EndBfuPeriod t).1.EndBfuPeriod t').2).count SinkCall.triggerConvergence
        = 2 := by
  refine ⟨rfl, rfl, rfl, rfl, ?_⟩
  simp [RouteManagementModule.EndBfuPeriod, List.count_append,
    count_triggerConvergence_map_applyRoute]

theorem mapFind_mapErase_self {α : Type} (m : List (NodePair × α)) (k : NodePair) :
    mapFind (mapErase m k) k = none := by
  induction m with
  | nil => rfl
  | cons hd tl ih =>
      obtain ⟨k', v⟩ := hd
      by_cases h : k' = k
      · simpa [mapErase, h] using ih
      · simpa [mapErase, h, mapFind] using ih

theorem recordRouteConvergence_find (pa : PerformanceAnalyzer) (a b : Int) (now : ℚ)
    (ev : LinkEvent) (h : mapFind pa.activeEvents (MakeLinkKey a b) = some ev) :
    mapFind (pa.RecordRouteConvergence a b now).activeEvents (MakeLinkKey a b)
      = some { ev with
          routeUpdateTime := if ev.isRfp then ev.routeUpdateTime else now,
          packetsLostDuringOutage :=
            pa.packetsSentTotal - pa.packetsAtLinkDown
              - (pa.packetsReceivedTotal - pa.packetsAtLinkDown) } ∧
    (pa.RecordRouteConvergence a b now).rfp = pa.rfp := by
  simp only [PerformanceAnalyzer.RecordRouteConvergence, h]
  exact ⟨mapFind_mapSet_self _ _ _, by trivial⟩

theorem completeLinkEvent_rfp (pa : PerformanceAnalyzer) (a b : Int) (qm : Nat)
    (ev : LinkEvent) (h : mapFind pa.activeEvents (MakeLinkKey a b) = some ev)
    (hrfp : ev.isRfp = true) :
    mapFind (pa.CompleteLinkEvent a b qm).activeEvents (MakeLinkKey a b) = none ∧
    (pa.CompleteLinkEvent a b qm).rfp.linkDownEvents = pa.rfp.linkDownEvents + 1 := by
  simp [PerformanceAnalyzer.CompleteLinkEvent, h, hrfp, mapFind_mapErase_self]

/-- C7 (amended: at T3 the Orchestrator calls `RestoreNormalDetection`
for the event's pair and does not touch the analyzer; the per-event
measurement is recorded and finalized when the T0 marker fires, not at
T3): for every controller state holding an in-flight RFP measurement for
the pair, `ExecuteT3Actions` applies exactly `RestoreNormalDetection`
(clearing the forced-down override) and leaves the analyzer unchanged,
while `ExecuteT0Actions` erases the in-flight event and adds it to the
RFP aggregate. -/
theorem t3_restoreNormal_t0_completes (c : SatnetOspfController) (a b : Int)
    (t t' : ℚ) (ev : LinkEvent)
    (hkey : mapFind c.analyzer.activeEvents (MakeLinkKey a b) = some ev)
    (hrfp : ev.isRfp = true) :
    (c.ExecuteT3Actions a b t).ldm = c.ldm.RestoreNormalDetection a b t ∧
    MakeOrderedPair a b ∉ (c.ExecuteT3Actions a b t).ldm.forcedDownLinks ∧
    (c.ExecuteT3Actions a b t).analyzer = c.analyzer ∧
    mapFind (c.ExecuteT0Actions a b t').analyzer.activeEvents (MakeLinkKey a b)
        = none ∧
    (c.ExecuteT0Actions a b t').analyzer.rfp.linkDownEvents
        = c.analyzer.rfp.linkDownEvents + 1 := by
  obtain ⟨hfind, hrfpagg⟩ :=
    recordRouteConvergence_find c.analyzer a b (t' * 1000) ev hkey
  have hcomp :=
    completeLinkEvent_rfp (c.analyzer.RecordRouteConvergence a b (t' * 1000))
      a b c.totalQuaggaModifications _ hfind hrfp
  refine ⟨rfl, ?_, rfl, hcomp.1, hcomp.2.trans (by rw [hrfpagg])⟩
  simp [SatnetOspfController.ExecuteT3Actions,
    LinkDetectionModule.RestoreNormalDetection, mem_setErase_iff]

/-- Witness for the amended C7 on the concrete T1-then-T0-then-T3 run. -/
theorem t3_restoreNormal_t0_completes_witness :
    (mapFind ctrlAfterT1.analyzer.activeEvents (MakeLinkKey 0 1)
        = some rfpLinkEvent01 ∧
     rfpLinkEvent01.isRfp = true) ∧
    ((ctrlAfterT1.ExecuteT3Actions 0 1 (21/2)).ldm
        = ctrlAfterT1.ldm.RestoreNormalDetection 0 1 (21/2) ∧
     MakeOrderedPair 0 1 ∉
        (ctrlAfterT1.ExecuteT3Actions 0 1 (21/2)).ldm.forcedDownLinks ∧
     (ctrlAfterT1.ExecuteT3Actions 0 1 (21/2)).analyzer = ctrlAfterT1.analyzer ∧
     mapFind (ctrlAfterT1.ExecuteT0Actions 0 1 10).analyzer.activeEvents
        (MakeLinkKey 0 1) = none ∧
     (ctrlAfterT1.ExecuteT0Actions 0 1 10).analyzer.rfp.linkDownEvents
        = ctrlAfterT1.analyzer.rfp.linkDownEvents + 1) :=
  ⟨⟨rfl, rfl⟩,
   t3_restoreNormal_t0_completes ctrlAfterT1 0 1 (21/2) 10 rfpLinkEvent01 rfl rfl⟩

/-- C7 counterexample: the per-event measurement is finalized when the
T0 marker fires — an earlier marker than T3 — and the T3 actions do not
touch the analyzer at all: after `ExecuteT1Actions` the event is
in-flight and the RFP aggregate holds 0 events; already after
`ExecuteT0Actions` the event is erased and the aggregate holds 1; the
subsequent `ExecuteT3Actions` leaves the analyzer unchanged. -/
theorem measurement_finalized_at_T0_marker :
    (mapFind ctrlAfterT1.analyzer.activeEvents (MakeLinkKey 0 1)).isSome = true ∧
    ctrlAfterT1.analyzer.rfp.linkDownEvents = 0 ∧
    mapFind ctrlAfterT0.analyzer.activeEvents (MakeLinkKey 0 1) = none ∧
    ctrlAfterT0.analyzer.rfp.linkDownEvents = 1 ∧
    (ctrlAfterT0.ExecuteT3Actions 0 1 (21/2)).analyzer = ctrlAfterT0.analyzer :=
  ⟨rfl, rfl, rfl, rfl, rfl⟩

/-- C8 (amended: the registration API validates and rejects invalid node
identifiers with no state change and nothing scheduled; the observation
API `OnLinkStateChange` performs no boundary validation — see the
counterexample): for every controller state and invalid identifiers
(negative, out of range, or equal), `SchedulePredictableLinkDown`
returns the state unchanged and schedules no timeline action. -/
theorem schedule_rejects_invalid_ids (c : SatnetOspfController) (lid a b : Int)
    (t : ℚ) (n : Nat) (h : ValidateNodeIndices a b n = false) :
    c.SchedulePredictableLinkDown lid a b t n = (c, []) := by
  simp [SatnetOspfController.SchedulePredictableLinkDown, h]

/-- Witness for the amended C8: equal identifiers `(2,2)` with 5 nodes
are rejected and nothing is scheduled. -/
theorem schedule_rejects_invalid_ids_witness :
    ValidateNodeIndices 2 2 5 = false ∧
    initController.SchedulePredictableLinkDown 9 2 2 5 5 = (initController, []) :=
  ⟨rfl, schedule_rejects_invalid_ids initController 9 2 2 5 5 rfl⟩

/-- C8 counterexample: the observation API is not validated: a call
with equal (hence invalid) identifiers `(2,2)` is not rejected — it
mutates the LDM, recording real state `true` for the degenerate pair. -/
theorem onLinkStateChange_invalid_ids_mutate_state :
    ValidateNodeIndices 2 2 5 = false ∧
    initController.ldm.GetRealState 2 2 = false ∧
    (initController.OnLinkStateChange 2 2 true 1 5).1.ldm.GetRealState 2 2 = true :=
  ⟨rfl, rfl, rfl⟩
